import Mathlib

/-!
Shallow embedding of the `UnitAddConduit` importer conduit from
`src/pulp/server/content/conduits/unit_add.py` and of the exit-code
aggregation loop of `_stop_workers` from
`server/pulp/server/async/manage_workers.py`.

The conduit composes backing-store operations (content-unit lookup by natural
key, insert and update of content units, repository association, unit
linking).  The manager implementations behind those operations are outside the
sources given here; each is modelled from the specification's minimum
backing-store contract and carries a doc comment saying so.  Backing-store
failures (connectivity and similar) are modelled by a `Faults` environment
that says which store call fails with a store error; `noFaults` is the
fault-free environment.
-/

namespace Pulp

/-- An ordered mapping of field name to scalar value, used for `unit_key` and
`metadata` dictionaries; lookups see the first occurrence of a name. -/
abbrev Fields := List (String × String)

/-- Transfer object for a content unit (`pulp.server.content.plugins.model.Unit`).
The `id` field is `none` until the unit is saved. -/
structure Unit where
  type_id : String
  unit_key : Fields
  metadata : Fields
  storage_path : Option String
  id : Option Nat
deriving DecidableEq, Repr

/-- A durable content-unit record in the backing store: a store-assigned id,
the type id, and the merged field document. -/
structure StoredUnit where
  id : Nat
  type_id : String
  fields : Fields
deriving DecidableEq, Repr

/-- A repository-membership record attributed to an owner. -/
structure Association where
  repo_id : String
  type_id : String
  unit_id : Nat
  owner_type : String
  owner_id : String
deriving DecidableEq, Repr

/-- A directed reference from one durable content unit to another. -/
structure Link where
  from_type_id : String
  from_unit_id : Nat
  to_type_id : String
  to_unit_id : Nat
deriving DecidableEq, Repr

/-- The backing store's state: durable units, the next fresh id, repository
associations and unit links. -/
@[ext]
structure Store where
  units : List StoredUnit
  nextId : Nat
  associations : List Association
  links : List Link
deriving DecidableEq, Repr

/-- Internal error taxonomy of the store layer: `MissingResource` is the
lookup miss raised by `get_content_unit_by_keys_dict` (imported from
`pulp.server.exceptions`), `PreconditionViolation` is raised when an operation
needs a durable id and none is present, `StoreFailure` stands for any other
backing-store error. -/
inductive StoreErr where
  | MissingResource
  | PreconditionViolation
  | StoreFailure
deriving DecidableEq, Repr

/-- The single conduit-boundary exception kind
(`pulp.server.content.conduits._base.ImporterConduitException`); it carries
the original cause, mirroring `raise ImporterConduitException(e)`. -/
structure ImporterConduitException where
  cause : StoreErr
deriving DecidableEq, Repr

/-- Fault environment: which backing-store call fails with a store error
during one conduit operation.  `linkFails1` and `linkFails2` refer to the
first and second `link_referenced_content_units` call of `link_unit`. -/
structure Faults where
  lookupFails : Bool
  addFails : Bool
  updateFails : Bool
  assocFails : Bool
  pathFails : Bool
  fetchFails : Bool
  linkFails1 : Bool
  linkFails2 : Bool
deriving DecidableEq, Repr

/-- The fault-free environment: every backing-store call succeeds. -/
def noFaults : Faults := ⟨false, false, false, false, false, false, false, false⟩

/-- A stored field document matches a natural key when every field named by
the key has the key's value in the document. -/
def keyMatches (fields key : Fields) : Bool :=
  key.all fun p => fields.lookup p.1 == key.lookup p.1

/-- Modelled from the spec: the backing store's `findByKey(type_id, unit_key)`
point lookup — the first stored unit of the type whose document matches the
key, if any. -/
def findByKey (s : Store) (tid : String) (key : Fields) : Option StoredUnit :=
  s.units.find? fun su => su.type_id == tid && keyMatches su.fields key

/-- Modelled from the spec: the content query manager's
`get_content_unit_by_keys_dict`, which raises `MissingResource` on a lookup
miss; the manager implementation is outside the given sources. -/
def get_content_unit_by_keys_dict (f : Faults) (s : Store) (tid : String)
    (key : Fields) : Except StoreErr StoredUnit :=
  if f.lookupFails then .error .StoreFailure
  else
    match findByKey s tid key with
    | some su => .ok su
    | none => .error .MissingResource

/-- Modelled from the spec: the content manager's `add_content_unit` — insert
a new record and assign a fresh id; the manager implementation is outside the
given sources. -/
def add_content_unit (f : Faults) (s : Store) (tid : String)
    (fields : Fields) : Except StoreErr (Nat × Store) :=
  if f.addFails then .error .StoreFailure
  else .ok (s.nextId,
    { s with units := s.units ++ [⟨s.nextId, tid, fields⟩], nextId := s.nextId + 1 })

/-- Modelled from the spec: the content manager's `update_content_unit` —
replace the field document of the record with the given id; the manager
implementation is outside the given sources. -/
def update_content_unit (f : Faults) (s : Store) (tid : String) (uid : Nat)
    (fields : Fields) : Except StoreErr Store :=
  if f.updateFails then .error .StoreFailure
  else .ok { s with units := s.units.map fun su =>
    if su.id == uid && su.type_id == tid then { su with fields := fields } else su }

/-- Set-insert of one association record. -/
def assocInsert (s : Store) (a : Association) : Store :=
  if a ∈ s.associations then s else { s with associations := s.associations ++ [a] }

/-- Modelled from the spec: the association manager's `associate_unit_by_id` —
additive set-insert of a membership record, a no-op when the record already
exists; the manager implementation is outside the given sources. -/
def associate_unit_by_id (f : Faults) (s : Store) (repo tid : String)
    (uid : Nat) (otype oid : String) : Except StoreErr Store :=
  if f.assocFails then .error .StoreFailure
  else .ok (assocInsert s ⟨repo, tid, uid, otype, oid⟩)

/-- Set-insert of one directed link record. -/
def insertLink (s : Store) (l : Link) : Store :=
  if l ∈ s.links then s else { s with links := s.links ++ [l] }

/-- Modelled from the spec: the content manager's
`link_referenced_content_units(from_type, from_id, to_type, to_ids)` — both
endpoints must already be durable (have ids), otherwise it fails with
`PreconditionViolation` and writes nothing; duplicate link inserts are
idempotent.  The manager implementation is outside the given sources. -/
def link_referenced_content_units (fail : Bool) (s : Store) (ftid : String)
    (fid : Option Nat) (ttid : String) (tids : List (Option Nat)) :
    Except StoreErr Store :=
  if fail then .error .StoreFailure
  else
    match fid with
    | none => .error .PreconditionViolation
    | some fi =>
      if tids.any fun t => t.isNone then .error .PreconditionViolation
      else .ok (tids.foldl (fun acc t => insertLink acc ⟨ftid, fi, ttid, t.getD 0⟩) s)

/-- Modelled from the spec (and the `init_unit` docstring in the source): the
merge of `unit_key` and `metadata` into the stored document, with `unit_key`
values taking precedence on a shared field name. -/
def to_pulp_unit (u : Unit) : Fields :=
  u.unit_key ++ u.metadata.filter fun p => (u.unit_key.lookup p.1).isNone

/-- Owner type recorded for associations created by an importer
(`pulp.server.managers.repo.unit_association.OWNER_TYPE_IMPORTER`). -/
def OWNER_TYPE_IMPORTER : String := "importer"

/-- Per-invocation conduit state (`UnitAddConduit.__init__`): the repository
and importer being synchronized and the invocation-scoped counters. -/
@[ext]
structure UnitAddConduit where
  repo_id : String
  importer_id : String
  added_count : Nat
  updated_count : Nat
deriving DecidableEq, Repr

/-- Constructing the conduit starts both counters at zero. -/
def UnitAddConduit.new (repo_id importer_id : String) : UnitAddConduit :=
  ⟨repo_id, importer_id, 0, 0⟩

deriving instance DecidableEq for Except

/-- Outcome of a conduit call that returns a unit: the result (or an error),
and the conduit and store state after the call — state changes made before a
failure persist, as they do for the mutable objects in the source. -/
structure SaveOutcome (ε : Type) where
  result : Except ε Unit
  conduit : UnitAddConduit
  store : Store
deriving DecidableEq, Repr

/-- Outcome of a conduit call that returns nothing: the error if one was
raised, and the conduit and store state after the call. -/
structure LinkOutcome (ε : Type) where
  err : Option ε
  conduit : UnitAddConduit
  store : Store
deriving DecidableEq, Repr

/-- The identity-resolution step of `save_unit`: the key lookup
(`get_content_unit_by_keys_dict`), the first of the operation's separate
backing-store calls. -/
def save_check (f : Faults) (s : Store) (u : Unit) : Except StoreErr StoredUnit :=
  get_content_unit_by_keys_dict f s u.type_id u.unit_key

/-- The act step of `save_unit`, taking the result of an earlier `save_check`:
on a hit, update the found record and bump `_updated_count`; on
`MissingResource` (from the lookup or the update), insert and bump
`_added_count`; then associate the unit with the repository.  Mirrors the
body of the outer `try` in `UnitAddConduit.save_unit`. -/
def save_act (f : Faults) (c : UnitAddConduit) (s : Store) (u : Unit)
    (check : Except StoreErr StoredUnit) : SaveOutcome StoreErr :=
  let pulp_unit := to_pulp_unit u
  let tryUpdate : Except StoreErr (Nat × Store) :=
    match check with
    | .ok existing =>
      match update_content_unit f s u.type_id existing.id pulp_unit with
      | .ok s' => .ok (existing.id, s')
      | .error e => .error e
    | .error e => .error e
  let step1 : Except StoreErr (Unit × UnitAddConduit × Store) :=
    match tryUpdate with
    | .ok (eid, s') =>
      .ok ({ u with id := some eid },
           { c with updated_count := c.updated_count + 1 }, s')
    | .error .MissingResource =>
      match add_content_unit f s u.type_id pulp_unit with
      | .ok (nid, s') =>
        .ok ({ u with id := some nid },
             { c with added_count := c.added_count + 1 }, s')
      | .error e => .error e
    | .error e => .error e
  match step1 with
  | .error e => { result := .error e, conduit := c, store := s }
  | .ok (u', c', s') =>
    match associate_unit_by_id f s' c.repo_id u.type_id (u'.id.getD 0)
        OWNER_TYPE_IMPORTER c.importer_id with
    | .ok s'' => { result := .ok u', conduit := c', store := s'' }
    | .error e => { result := .error e, conduit := c', store := s' }

/-- Body of the `try` block of `UnitAddConduit.save_unit`: a client-side
check (key lookup) followed by the act step, as two separate store calls. -/
def save_unit_inner (f : Faults) (c : UnitAddConduit) (s : Store) (u : Unit) :
    SaveOutcome StoreErr :=
  save_act f c s u (save_check f s u)

/-- `UnitAddConduit.save_unit`: the inner body with any failure re-raised at
the conduit boundary as `ImporterConduitException` carrying the cause. -/
def save_unit (f : Faults) (c : UnitAddConduit) (s : Store) (u : Unit) :
    SaveOutcome ImporterConduitException :=
  let o := save_unit_inner f c s u
  { result := o.result.mapError ImporterConduitException.mk,
    conduit := o.conduit, store := o.store }

/-- Body of the `try` block of `UnitAddConduit.link_unit`: one directed link
write, and a second one in the opposite direction when `bidirectional`. -/
def link_unit_inner (f : Faults) (c : UnitAddConduit) (s : Store)
    (from_unit to_unit : Unit) (bidirectional : Bool) : LinkOutcome StoreErr :=
  match link_referenced_content_units f.linkFails1 s from_unit.type_id
      from_unit.id to_unit.type_id [to_unit.id] with
  | .error e => { err := some e, conduit := c, store := s }
  | .ok s' =>
    if bidirectional then
      match link_referenced_content_units f.linkFails2 s' to_unit.type_id
          to_unit.id from_unit.type_id [from_unit.id] with
      | .error e => { err := some e, conduit := c, store := s' }
      | .ok s'' => { err := none, conduit := c, store := s'' }
    else { err := none, conduit := c, store := s' }

/-- `UnitAddConduit.link_unit`: the inner body with any failure re-raised at
the conduit boundary as `ImporterConduitException` carrying the cause. -/
def link_unit (f : Faults) (c : UnitAddConduit) (s : Store)
    (from_unit to_unit : Unit) (bidirectional : Bool) :
    LinkOutcome ImporterConduitException :=
  let o := link_unit_inner f c s from_unit to_unit bidirectional
  { err := o.err.map ImporterConduitException.mk,
    conduit := o.conduit, store := o.store }

/-- Root of the namespace content units are stored under; a unit's path is
namespaced by its `type_id` below this root. -/
def contentStorageRoot : String := "/var/lib/pulp/content/"

/-- Modelled from the spec: the content query manager's
`request_content_unit_file_path(type_id, relative_path)` — pure resolution of
a relative path against a namespace scoped by `type_id`; the manager
implementation is outside the given sources. -/
def request_content_unit_file_path (fail : Bool) (type_id relative_path : String) :
    Except StoreErr String :=
  if fail then .error .StoreFailure
  else .ok (contentStorageRoot ++ type_id ++ "/" ++ relative_path)

/-- Body of the `try` block of `UnitAddConduit.init_unit`: compute the storage
location when a relative path is given and build the in-memory transfer
object; its `id` field is not populated. -/
def init_unit_inner (f : Faults) (c : UnitAddConduit) (s : Store)
    (type_id : String) (unit_key metadata : Fields)
    (relative_path : Option String) : SaveOutcome StoreErr :=
  match relative_path with
  | some rp =>
    match request_content_unit_file_path f.pathFails type_id rp with
    | .ok path =>
      { result := .ok ⟨type_id, unit_key, metadata, some path, none⟩,
        conduit := c, store := s }
    | .error e => { result := .error e, conduit := c, store := s }
  | none =>
    { result := .ok ⟨type_id, unit_key, metadata, none, none⟩,
      conduit := c, store := s }

/-- `UnitAddConduit.init_unit`: the inner body with any failure re-raised at
the conduit boundary as `ImporterConduitException` carrying the cause. -/
def init_unit (f : Faults) (c : UnitAddConduit) (s : Store) (type_id : String)
    (unit_key metadata : Fields) (relative_path : Option String) :
    SaveOutcome ImporterConduitException :=
  let o := init_unit_inner f c s type_id unit_key metadata relative_path
  { result := o.result.mapError ImporterConduitException.mk,
    conduit := o.conduit, store := o.store }

/-- A type definition record resolved from a type id: the id and the names of
the fields that form the natural key for units of the type. -/
structure TypeDef where
  id : String
  unit_key_names : List String
deriving DecidableEq, Repr

/-- Modelled from the spec: `types_db.type_definition` resolves a type id to
its definition; the types database module is outside the given sources. -/
def type_definition (type_id : String) : TypeDef := ⟨type_id, []⟩

/-- A raw associated-unit record as returned by the association query
manager's cross-type fetch. -/
structure AssociatedUnitRecord where
  unit_type_id : String
  unit_id : Nat
  fields : Fields
deriving DecidableEq, Repr

/-- Modelled from the spec: `common_utils.to_plugin_unit` hydrates a raw
record into a transfer object using its type's definition; the module
`_common.py` is outside the given sources. -/
def to_plugin_unit (record : AssociatedUnitRecord) (td : TypeDef) : Unit :=
  ⟨record.unit_type_id,
   record.fields.filter fun p => p.1 ∈ td.unit_key_names,
   record.fields.filter fun p => p.1 ∉ td.unit_key_names,
   none, some record.unit_id⟩

/-- Resolution of the listed type definitions, one `type_definition` call per
list entry; the second component counts the calls performed. -/
def resolve_type_defs : List String → List (String × TypeDef) × Nat
  | [] => ([], 0)
  | d :: rest =>
    let (m, n) := resolve_type_defs rest
    ((d, type_definition d) :: m, n + 1)

/-- Body of the `try` block of `UnitAddConduit.get_units`: fetch the raw
records, collect the distinct type ids in use, resolve each distinct type's
definition once into a dictionary, then hydrate every record through that
dictionary.  Returns the hydrated units and the number of type-definition
resolutions performed. -/
def get_units_inner (f : Faults) (records : List AssociatedUnitRecord) :
    Except StoreErr (List Unit × Nat) :=
  if f.fetchFails then .error .StoreFailure
  else
    let unique_type_defs := (records.map fun r => r.unit_type_id).dedup
    let resolved := resolve_type_defs unique_type_defs
    let all_units := records.map fun r =>
      to_plugin_unit r ((resolved.1.lookup r.unit_type_id).getD
        (type_definition r.unit_type_id))
    .ok (all_units, resolved.2)

/-- `UnitAddConduit.get_units`: the inner body with any failure re-raised at
the conduit boundary as `ImporterConduitException` carrying the cause. -/
def get_units (f : Faults) (records : List AssociatedUnitRecord) :
    Except ImporterConduitException (List Unit × Nat) :=
  (get_units_inner f records).mapError ImporterConduitException.mk

/-- An interleaving of two `save_unit` bodies on the same store in which both
threads run their key-lookup store call before either runs its act step —
each element is one of the operation's own atomic store calls, in each
thread's program order. -/
def racedSaves (c1 c2 : UnitAddConduit) (s : Store) (u1 u2 : Unit) :
    SaveOutcome StoreErr × SaveOutcome StoreErr :=
  let ch1 := save_check noFaults s u1
  let ch2 := save_check noFaults s u2
  let o1 := save_act noFaults c1 s u1 ch1
  let o2 := save_act noFaults c2 o1.store u2 ch2
  (o1, o2)

/-- `os.EX_OK`, the conventional success exit code. -/
def EX_OK : Nat := 0

/-- The exit-code aggregation loop of `_stop_workers`: starting from `EX_OK`,
each worker's `systemctl stop` return code replaces the accumulator when it is
non-zero, in iteration order over the discovered unit files. -/
def stop_workers_exit_code (returncodes : List Nat) : Nat :=
  returncodes.foldl (fun exit_code rc => if rc ≠ EX_OK then rc else exit_code) EX_OK

/-- `_stop_workers` as observed by the caller: `some code` when the tool calls
`sys.exit(code)` with the aggregated non-zero code, `none` when every stop
command returned zero and the tool exits normally. -/
def stop_workers (returncodes : List Nat) : Option Nat :=
  let ec := stop_workers_exit_code returncodes
  if ec ≠ EX_OK then some ec else none

/-! Helper lemmas about field lookups, set-inserts and list maps. -/

lemma lookup_append_left (l1 l2 : Fields) (k : String)
    (h : (l1.lookup k).isSome) : (l1 ++ l2).lookup k = l1.lookup k := by
  induction l1 with
  | nil => simp [List.lookup] at h
  | cons p rest ih =>
    obtain ⟨k', v⟩ := p
    cases hk : k == k' with
    | true => simp [List.lookup, hk]
    | false =>
      simp only [List.lookup, hk] at h
      simp only [List.cons_append, List.lookup, hk]
      exact ih h

lemma lookup_isSome_of_mem (l : Fields) (p : String × String) (h : p ∈ l) :
    (l.lookup p.1).isSome := by
  induction l with
  | nil => cases h
  | cons q rest ih =>
    obtain ⟨k', v'⟩ := q
    cases hk : p.1 == k' with
    | true => simp [List.lookup, hk]
    | false =>
      rcases List.mem_cons.mp h with h' | h'
      · rw [h'] at hk
        simp at hk
      · simp only [List.lookup, hk]
        exact ih h'

lemma keyMatches_to_pulp_unit (u : Unit) :
    keyMatches (to_pulp_unit u) u.unit_key = true := by
  unfold keyMatches to_pulp_unit
  rw [List.all_eq_true]
  intro p hp
  rw [lookup_append_left _ _ _ (lookup_isSome_of_mem _ p hp)]
  simp

lemma map_eq_self {α : Type} (l : List α) (f : α → α) (h : ∀ x ∈ l, f x = x) :
    l.map f = l := by
  induction l with
  | nil => rfl
  | cons x xs ih =>
    rw [List.map_cons, h x (List.mem_cons_self x xs),
      ih fun y hy => h y (List.mem_cons_of_mem x hy)]

@[simp]
lemma assocInsert_units (s : Store) (a : Association) :
    (assocInsert s a).units = s.units := by
  unfold assocInsert; split <;> rfl

@[simp]
lemma assocInsert_nextId (s : Store) (a : Association) :
    (assocInsert s a).nextId = s.nextId := by
  unfold assocInsert; split <;> rfl

@[simp]
lemma assocInsert_links (s : Store) (a : Association) :
    (assocInsert s a).links = s.links := by
  unfold assocInsert; split <;> rfl

lemma mem_assocInsert_self (s : Store) (a : Association) :
    a ∈ (assocInsert s a).associations := by
  unfold assocInsert
  split
  · assumption
  · exact List.mem_append_right _ (List.mem_singleton.mpr rfl)

lemma assocInsert_of_mem {s : Store} {a : Association}
    (h : a ∈ s.associations) : assocInsert s a = s := by
  unfold assocInsert; rw [if_pos h]

@[simp]
lemma insertLink_units (s : Store) (l : Link) :
    (insertLink s l).units = s.units := by
  unfold insertLink; split <;> rfl

@[simp]
lemma insertLink_nextId (s : Store) (l : Link) :
    (insertLink s l).nextId = s.nextId := by
  unfold insertLink; split <;> rfl

@[simp]
lemma insertLink_associations (s : Store) (l : Link) :
    (insertLink s l).associations = s.associations := by
  unfold insertLink; split <;> rfl

lemma mem_insertLink_self (s : Store) (l : Link) : l ∈ (insertLink s l).links := by
  unfold insertLink
  split
  · assumption
  · exact List.mem_append_right _ (List.mem_singleton.mpr rfl)

lemma mem_insertLink_of_mem {s : Store} {l l' : Link} (h : l' ∈ s.links) :
    l' ∈ (insertLink s l).links := by
  unfold insertLink
  split
  · exact h
  · exact List.mem_append_left _ h

lemma mem_insertLink_iff (s : Store) (l l' : Link) :
    l' ∈ (insertLink s l).links ↔ l' = l ∨ l' ∈ s.links := by
  unfold insertLink
  split
  · rename_i hmem
    exact ⟨fun h => Or.inr h, fun h => h.elim (fun e => e ▸ hmem) id⟩
  · simp only [List.mem_append, List.mem_singleton]
    exact Or.comm

lemma insertLink_of_mem {s : Store} {l : Link} (h : l ∈ s.links) :
    insertLink s l = s := by
  unfold insertLink; rw [if_pos h]

/-! Evaluation lemmas for `save_unit` in the fault-free environment. -/

lemma save_unit_noFaults_fresh (c : UnitAddConduit) (s : Store) (u : Unit)
    (hfresh : findByKey s u.type_id u.unit_key = none) :
    save_unit noFaults c s u =
      { result := .ok { u with id := some s.nextId },
        conduit := { c with added_count := c.added_count + 1 },
        store := assocInsert
          { s with units := s.units ++ [⟨s.nextId, u.type_id, to_pulp_unit u⟩],
                   nextId := s.nextId + 1 }
          ⟨c.repo_id, u.type_id, s.nextId, OWNER_TYPE_IMPORTER, c.importer_id⟩ } := by
  unfold save_unit save_unit_inner save_act save_check get_content_unit_by_keys_dict
    add_content_unit associate_unit_by_id
  simp [noFaults, hfresh, Except.mapError]

lemma save_unit_noFaults_existing (c : UnitAddConduit) (s : Store) (u : Unit)
    (ex : StoredUnit) (hfind : findByKey s u.type_id u.unit_key = some ex) :
    save_unit noFaults c s u =
      { result := .ok { u with id := some ex.id },
        conduit := { c with updated_count := c.updated_count + 1 },
        store := assocInsert
          { s with units := s.units.map fun su =>
              if su.id == ex.id && su.type_id == u.type_id then
                { su with fields := to_pulp_unit u } else su }
          ⟨c.repo_id, u.type_id, ex.id, OWNER_TYPE_IMPORTER, c.importer_id⟩ } := by
  unfold save_unit save_unit_inner save_act save_check get_content_unit_by_keys_dict
    update_content_unit associate_unit_by_id
  simp [noFaults, hfind, Except.mapError]

lemma findByKey_after_fresh_save (c : UnitAddConduit) (s : Store) (u : Unit)
    (hfresh : findByKey s u.type_id u.unit_key = none) :
    findByKey (save_unit noFaults c s u).store u.type_id u.unit_key =
      some ⟨s.nextId, u.type_id, to_pulp_unit u⟩ := by
  rw [save_unit_noFaults_fresh c s u hfresh]
  unfold findByKey at hfresh ⊢
  rw [assocInsert_units, List.find?_append, hfresh]
  simp [List.find?, keyMatches_to_pulp_unit]

lemma assocInsert_update_helper (t : Store) (a : Association)
    (fn : StoredUnit → StoredUnit) (hmap : t.units.map fn = t.units)
    (hmem : a ∈ t.associations) :
    assocInsert { t with units := t.units.map fn } a = t := by
  rw [hmap]
  exact assocInsert_of_mem hmem

lemma second_save_map_eq (c : UnitAddConduit) (s : Store) (u : Unit)
    (hfresh : findByKey s u.type_id u.unit_key = none)
    (hids : ∀ su ∈ s.units, su.id < s.nextId) :
    (save_unit noFaults c s u).store.units.map
      (fun su => if su.id == s.nextId && su.type_id == u.type_id then
        { su with fields := to_pulp_unit u } else su) =
      (save_unit noFaults c s u).store.units := by
  rw [save_unit_noFaults_fresh c s u hfresh, assocInsert_units]
  apply map_eq_self
  intro x hx
  rcases List.mem_append.mp hx with hx' | hx'
  · have hbeq : (x.id == s.nextId) = false := by
      rw [beq_eq_false_iff_ne]
      exact Nat.ne_of_lt (hids x hx')
    rw [hbeq, Bool.false_and, if_neg (by simp)]
  · rw [List.mem_singleton.mp hx']
    simp

lemma save_unit_noFaults_second_result (c : UnitAddConduit) (s : Store) (u : Unit)
    (hfresh : findByKey s u.type_id u.unit_key = none) :
    (save_unit noFaults (save_unit noFaults c s u).conduit
        (save_unit noFaults c s u).store u).result =
      .ok { u with id := some s.nextId } := by
  rw [save_unit_noFaults_existing _ _ u ⟨s.nextId, u.type_id, to_pulp_unit u⟩
    (findByKey_after_fresh_save c s u hfresh)]

lemma save_unit_noFaults_second_conduit (c : UnitAddConduit) (s : Store) (u : Unit)
    (hfresh : findByKey s u.type_id u.unit_key = none) :
    (save_unit noFaults (save_unit noFaults c s u).conduit
        (save_unit noFaults c s u).store u).conduit =
      { c with added_count := c.added_count + 1,
               updated_count := c.updated_count + 1 } := by
  rw [save_unit_noFaults_existing _ _ u ⟨s.nextId, u.type_id, to_pulp_unit u⟩
    (findByKey_after_fresh_save c s u hfresh),
    save_unit_noFaults_fresh c s u hfresh]

lemma save_unit_noFaults_second_store (c : UnitAddConduit) (s : Store) (u : Unit)
    (hfresh : findByKey s u.type_id u.unit_key = none)
    (hids : ∀ su ∈ s.units, su.id < s.nextId) :
    (save_unit noFaults (save_unit noFaults c s u).conduit
        (save_unit noFaults c s u).store u).store =
      (save_unit noFaults c s u).store := by
  rw [save_unit_noFaults_existing _ _ u ⟨s.nextId, u.type_id, to_pulp_unit u⟩
    (findByKey_after_fresh_save c s u hfresh)]
  refine assocInsert_update_helper _ _ _ ?_ ?_
  · exact second_save_map_eq c s u hfresh hids
  · rw [save_unit_noFaults_fresh c s u hfresh]
    exact mem_assocInsert_self _ _

/-! Concrete sample inputs used by the closed witness and counterexample
theorems below. -/

/-- A sample transfer unit as produced by `init_unit` (no id yet). -/
def sampleUnit : Unit :=
  { type_id := "rpm", unit_key := [("name", "bash"), ("version", "4.2")],
    metadata := [("arch", "x86_64")], storage_path := none, id := none }

/-- The empty backing store. -/
def emptyStore : Store := { units := [], nextId := 0, associations := [], links := [] }

/-- A sample conduit for one synchronization run. -/
def sampleConduit : UnitAddConduit := UnitAddConduit.new "repo1" "importer1"

/-- A fault environment in which only the association store call fails. -/
def assocFailure : Faults := ⟨false, false, false, true, false, false, false, false⟩

/-- A fault environment in which only the second link store call fails. -/
def secondLinkFailure : Faults := ⟨false, false, false, false, false, false, false, true⟩

/-- A fault environment in which only the first link store call fails. -/
def firstLinkFailure : Faults := ⟨false, false, false, false, false, false, true, false⟩

/-- The number of `type_definition` calls performed equals the length of the
distinct-type list handed to the resolution loop. -/
lemma resolve_type_defs_count (l : List String) :
    (resolve_type_defs l).2 = l.length := by
  induction l with
  | nil => rfl
  | cons d rest ih => simp [resolve_type_defs, ih]

/-! Evaluation lemmas for `link_unit` in the fault-free environment. -/

lemma link_unit_noFaults_uni (c : UnitAddConduit) (s : Store) (A B : Unit)
    (a b : Nat) (hA : A.id = some a) (hB : B.id = some b) :
    link_unit noFaults c s A B false =
      { err := none, conduit := c,
        store := insertLink s ⟨A.type_id, a, B.type_id, b⟩ } := by
  unfold link_unit link_unit_inner link_referenced_content_units
  simp [hA, hB, noFaults]

lemma link_unit_noFaults_bi (c : UnitAddConduit) (s : Store) (A B : Unit)
    (a b : Nat) (hA : A.id = some a) (hB : B.id = some b) :
    link_unit noFaults c s A B true =
      { err := none, conduit := c,
        store := insertLink (insertLink s ⟨A.type_id, a, B.type_id, b⟩)
          ⟨B.type_id, b, A.type_id, a⟩ } := by
  unfold link_unit link_unit_inner link_referenced_content_units
  simp [hA, hB, noFaults]

/-! Case analysis of the store state left behind by `save_unit` under an
arbitrary fault environment. -/

lemma save_unit_store_units_cases (f : Faults) (c : UnitAddConduit)
    (s : Store) (u : Unit) :
    (save_unit f c s u).store.units = s.units ∨
    (save_unit f c s u).store.units =
      s.units ++ [⟨s.nextId, u.type_id, to_pulp_unit u⟩] ∨
    ∃ ex, findByKey s u.type_id u.unit_key = some ex ∧
      (save_unit f c s u).store.units = s.units.map fun su =>
        if su.id == ex.id && su.type_id == u.type_id then
          { su with fields := to_pulp_unit u } else su := by
  unfold save_unit save_unit_inner save_act save_check get_content_unit_by_keys_dict
    add_content_unit update_content_unit associate_unit_by_id
  cases hl : f.lookupFails with
  | true => left; simp [hl]
  | false =>
    cases hf : findByKey s u.type_id u.unit_key with
    | none =>
      cases ha : f.addFails with
      | true => left; simp [hl, hf, ha]
      | false =>
        right; left
        cases has : f.assocFails <;> simp [hl, hf, ha, has]
    | some ex =>
      cases hu : f.updateFails with
      | true => left; simp [hl, hf, hu]
      | false =>
        right; right
        refine ⟨ex, rfl, ?_⟩
        cases has : f.assocFails <;> simp [hl, hf, hu, has]

lemma findByKey_some_mem {s : Store} {tid : String} {key : Fields}
    {ex : StoredUnit} (h : findByKey s tid key = some ex) :
    ex ∈ s.units ∧ keyMatches ex.fields key = true := by
  unfold findByKey at h
  refine ⟨List.mem_of_find?_eq_some h, ?_⟩
  have hp := List.find?_some h
  exact (Bool.and_eq_true _ _ ▸ hp).2

lemma save_unit_preserves_other_units (f : Faults) (c : UnitAddConduit)
    (s : Store) (u : Unit) (su : StoredUnit)
    (hnodup : (s.units.map StoredUnit.id).Nodup)
    (hsu : su ∈ s.units) (hkey : keyMatches su.fields u.unit_key = false) :
    su ∈ (save_unit f c s u).store.units := by
  rcases save_unit_store_units_cases f c s u with h | h | ⟨ex, hfind, h⟩
  · rw [h]; exact hsu
  · rw [h]; exact List.mem_append_left _ hsu
  · rw [h]
    obtain ⟨hexmem, hexkey⟩ := findByKey_some_mem hfind
    have hne : su ≠ ex := by
      intro e
      rw [e, hexkey] at hkey
      cases hkey
    have hid : su.id ≠ ex.id := fun hidem =>
      hne (List.inj_on_of_nodup_map hnodup hsu hexmem hidem)
    have hstep : (if su.id == ex.id && su.type_id == u.type_id then
        { su with fields := to_pulp_unit u } else su) = su := by
      rw [show (su.id == ex.id) = false from beq_eq_false_iff_ne.mpr hid,
        Bool.false_and, if_neg (by simp)]
    exact hstep ▸ List.mem_map_of_mem _ hsu

lemma link_unit_uni_fail_store (f : Faults) (c : UnitAddConduit) (s : Store)
    (A B : Unit) (hfail : (link_unit f c s A B false).err.isSome = true) :
    (link_unit f c s A B false).store = s := by
  unfold link_unit link_unit_inner at hfail ⊢
  cases h1 : link_referenced_content_units f.linkFails1 s A.type_id A.id
      B.type_id [B.id] with
  | error e => simp [h1]
  | ok s' => simp [h1] at hfail

/-! Exit-code aggregation of `_stop_workers`. -/

lemma getD_getLast?_cons (l : List Nat) :
    ∀ x a : Nat, ((x :: l).getLast?).getD a = (l.getLast?).getD x := by
  induction l with
  | nil => intro x a; rfl
  | cons y ys ih =>
    intro x a
    rw [List.getLast?_cons_cons, ih y a, ih y x]

lemma stop_foldl_eq (l : List Nat) :
    ∀ a : Nat,
      l.foldl (fun exit_code rc => if rc ≠ EX_OK then rc else exit_code) a =
        ((l.filter fun rc => decide (rc ≠ EX_OK)).getLast?).getD a := by
  induction l with
  | nil => intro a; rfl
  | cons x xs ih =>
    intro a
    by_cases hx : x ≠ EX_OK
    · rw [List.foldl_cons, if_pos hx, List.filter_cons, if_pos (by simpa using hx),
        getD_getLast?_cons, ih x]
    · rw [List.foldl_cons, if_neg hx, List.filter_cons,
        if_neg (by simpa using hx), ih a]

/-! Counter behavior of `save_unit` under an arbitrary fault environment. -/

lemma save_unit_conduit_shape (f : Faults) (c : UnitAddConduit) (s : Store)
    (u : Unit) :
    ((save_unit f c s u).result.isOk = false ∧ (save_unit f c s u).conduit = c) ∨
    (save_unit f c s u).conduit = { c with added_count := c.added_count + 1 } ∨
    (save_unit f c s u).conduit =
      { c with updated_count := c.updated_count + 1 } := by
  unfold save_unit save_unit_inner save_act save_check get_content_unit_by_keys_dict
    add_content_unit update_content_unit associate_unit_by_id
  cases hl : f.lookupFails with
  | true => left; simp [hl, Except.mapError, Except.isOk, Except.toBool]
  | false =>
    cases hf : findByKey s u.type_id u.unit_key with
    | none =>
      cases ha : f.addFails with
      | true => left; simp [hl, hf, ha, Except.mapError, Except.isOk, Except.toBool]
      | false =>
        right; left
        cases has : f.assocFails <;> simp [hl, hf, ha, has]
    | some ex =>
      cases hu : f.updateFails with
      | true => left; simp [hl, hf, hu, Except.mapError, Except.isOk, Except.toBool]
      | false =>
        right; right
        cases has : f.assocFails <;> simp [hl, hf, hu, has]

lemma link_unit_conduit_eq (f : Faults) (c : UnitAddConduit) (s : Store)
    (A B : Unit) (bidirectional : Bool) :
    (link_unit f c s A B bidirectional).conduit = c := by
  unfold link_unit link_unit_inner
  cases h1 : link_referenced_content_units f.linkFails1 s A.type_id A.id
      B.type_id [B.id] with
  | error e => simp [h1]
  | ok s' =>
    cases bidirectional with
    | false => simp [h1]
    | true =>
      cases h2 : link_referenced_content_units f.linkFails2 s' B.type_id B.id
          A.type_id [A.id] with
      | error e => simp [h1, h2]
      | ok s'' => simp [h1, h2]

lemma init_unit_conduit_eq (f : Faults) (c : UnitAddConduit) (s : Store)
    (type_id : String) (unit_key metadata : Fields)
    (relative_path : Option String) :
    (init_unit f c s type_id unit_key metadata relative_path).conduit = c := by
  unfold init_unit init_unit_inner
  cases relative_path with
  | none => rfl
  | some rp =>
    cases hp : request_content_unit_file_path f.pathFails type_id rp with
    | ok path => simp [hp]
    | error e => simp [hp]

/-- C1: for every unit whose natural key is not yet stored, saving it twice
through the conduit yields the same id both times; `added_count` increments
exactly once, on the first call, and `updated_count` increments on the second
call; the second save changes no stored state beyond the counter. -/
theorem claim_C1_idempotent_save (c : UnitAddConduit) (s : Store) (u : Unit)
    (hfresh : findByKey s u.type_id u.unit_key = none)
    (hids : ∀ su ∈ s.units, su.id < s.nextId) :
    (save_unit noFaults c s u).result = .ok { u with id := some s.nextId } ∧
    (save_unit noFaults (save_unit noFaults c s u).conduit
        (save_unit noFaults c s u).store u).result =
      .ok { u with id := some s.nextId } ∧
    (save_unit noFaults c s u).conduit.added_count = c.added_count + 1 ∧
    (save_unit noFaults c s u).conduit.updated_count = c.updated_count ∧
    (save_unit noFaults (save_unit noFaults c s u).conduit
        (save_unit noFaults c s u).store u).conduit.added_count =
      c.added_count + 1 ∧
    (save_unit noFaults (save_unit noFaults c s u).conduit
        (save_unit noFaults c s u).store u).conduit.updated_count =
      c.updated_count + 1 ∧
    (save_unit noFaults (save_unit noFaults c s u).conduit
        (save_unit noFaults c s u).store u).store =
      (save_unit noFaults c s u).store := by
  refine ⟨?_, save_unit_noFaults_second_result c s u hfresh, ?_, ?_, ?_, ?_,
    save_unit_noFaults_second_store c s u hfresh hids⟩
  · rw [save_unit_noFaults_fresh c s u hfresh]
  · rw [save_unit_noFaults_fresh c s u hfresh]
  · rw [save_unit_noFaults_fresh c s u hfresh]
  · rw [save_unit_noFaults_second_conduit c s u hfresh]
  · rw [save_unit_noFaults_second_conduit c s u hfresh]

/-- Witness for C1: the double-save property evaluated at a concrete fresh
unit over the empty store. -/
theorem claim_C1_witness :
    (save_unit noFaults sampleConduit emptyStore sampleUnit).result =
      .ok { sampleUnit with id := some 0 } ∧
    (save_unit noFaults (save_unit noFaults sampleConduit emptyStore sampleUnit).conduit
        (save_unit noFaults sampleConduit emptyStore sampleUnit).store sampleUnit).result =
      .ok { sampleUnit with id := some 0 } ∧
    (save_unit noFaults sampleConduit emptyStore sampleUnit).conduit.added_count =
      sampleConduit.added_count + 1 ∧
    (save_unit noFaults sampleConduit emptyStore sampleUnit).conduit.updated_count =
      sampleConduit.updated_count ∧
    (save_unit noFaults (save_unit noFaults sampleConduit emptyStore sampleUnit).conduit
        (save_unit noFaults sampleConduit emptyStore sampleUnit).store
        sampleUnit).conduit.added_count = sampleConduit.added_count + 1 ∧
    (save_unit noFaults (save_unit noFaults sampleConduit emptyStore sampleUnit).conduit
        (save_unit noFaults sampleConduit emptyStore sampleUnit).store
        sampleUnit).conduit.updated_count = sampleConduit.updated_count + 1 ∧
    (save_unit noFaults (save_unit noFaults sampleConduit emptyStore sampleUnit).conduit
        (save_unit noFaults sampleConduit emptyStore sampleUnit).store
        sampleUnit).store = (save_unit noFaults sampleConduit emptyStore sampleUnit).store :=
  claim_C1_idempotent_save sampleConduit emptyStore sampleUnit (by decide) (by decide)

/-- C2 counterexample: `save_unit` resolves identity by a client-side key
lookup followed by a separate insert, not by one atomic upsert-by-key store
call, so in the interleaving where two saves of the same `(type_id, unit_key)`
both run their lookup before either runs its insert, the two saves return two
different durable ids and the store ends up with two durable units for the one
key. -/
theorem claim_C2_counterexample :
    ((racedSaves sampleConduit sampleConduit emptyStore sampleUnit sampleUnit).1.result =
      .ok { sampleUnit with id := some 0 }) ∧
    ((racedSaves sampleConduit sampleConduit emptyStore sampleUnit sampleUnit).2.result =
      .ok { sampleUnit with id := some 1 }) ∧
    (((racedSaves sampleConduit sampleConduit emptyStore sampleUnit
        sampleUnit).2.store.units.filter fun su =>
          su.type_id == sampleUnit.type_id &&
            keyMatches su.fields sampleUnit.unit_key).map StoredUnit.id = [0, 1]) := by
  decide

/-- C2 (amended): `save_unit` resolves identity with a client-side
check-then-act — a key lookup (`save_check`) followed by a separate insert or
update store call (`save_act`) — not a single atomic upsert-by-key; under
sequential execution two saves of the same `(type_id, unit_key)` still resolve
to the same durable id, but an interleaving of two concurrent saves of one key
can produce two distinct durable ids. -/
theorem claim_C2_amended (c : UnitAddConduit) (s : Store) (u : Unit)
    (hfresh : findByKey s u.type_id u.unit_key = none) :
    (∀ (f : Faults) (c' : UnitAddConduit) (s' : Store) (u' : Unit),
      save_unit_inner f c' s' u' = save_act f c' s' u' (save_check f s' u')) ∧
    ∃ i : Nat,
      (save_unit noFaults c s u).result = .ok { u with id := some i } ∧
      (save_unit noFaults (save_unit noFaults c s u).conduit
          (save_unit noFaults c s u).store u).result = .ok { u with id := some i } := by
  refine ⟨fun f c' s' u' => rfl, s.nextId, ?_,
    save_unit_noFaults_second_result c s u hfresh⟩
  rw [save_unit_noFaults_fresh c s u hfresh]

/-- Witness for the amended C2 at a concrete fresh unit over the empty store. -/
theorem claim_C2_witness :
    (∀ (f : Faults) (c' : UnitAddConduit) (s' : Store) (u' : Unit),
      save_unit_inner f c' s' u' = save_act f c' s' u' (save_check f s' u')) ∧
    ∃ i : Nat,
      (save_unit noFaults sampleConduit emptyStore sampleUnit).result =
        .ok { sampleUnit with id := some i } ∧
      (save_unit noFaults (save_unit noFaults sampleConduit emptyStore sampleUnit).conduit
          (save_unit noFaults sampleConduit emptyStore sampleUnit).store sampleUnit).result =
        .ok { sampleUnit with id := some i } :=
  claim_C2_amended sampleConduit emptyStore sampleUnit (by decide)

/-- C3: `link_unit` on a pair in which either endpoint lacks a durable id
fails with the precondition-violation cause and creates no link record (the
store is unchanged). -/
theorem claim_C3_link_precondition (c : UnitAddConduit) (s : Store)
    (from_unit to_unit : Unit) (bidirectional : Bool)
    (h : from_unit.id = none ∨ to_unit.id = none) :
    (link_unit noFaults c s from_unit to_unit bidirectional).err =
      some (ImporterConduitException.mk .PreconditionViolation) ∧
    (link_unit noFaults c s from_unit to_unit bidirectional).store = s := by
  unfold link_unit link_unit_inner link_referenced_content_units
  rcases h with h | h
  · simp [h, noFaults]
  · cases hf : from_unit.id with
    | none => simp [noFaults]
    | some a => simp [hf, h, noFaults]

/-- Witness for C3: linking a not-yet-saved unit fails and writes nothing. -/
theorem claim_C3_witness :
    (link_unit noFaults sampleConduit emptyStore sampleUnit
        { sampleUnit with id := some 1 } false).err =
      some (ImporterConduitException.mk .PreconditionViolation) ∧
    (link_unit noFaults sampleConduit emptyStore sampleUnit
        { sampleUnit with id := some 1 } false).store = emptyStore :=
  claim_C3_link_precondition sampleConduit emptyStore sampleUnit
    { sampleUnit with id := some 1 } false (Or.inl rfl)

/-- C4: `init_unit` touches neither the store nor the conduit state, and in
the fault-free environment returns an in-memory unit with the given type, key
and metadata, an unset id, and a storage path resolved under a namespace
scoped by `type_id` exactly when a relative path is given. -/
theorem claim_C4_init_unit (f : Faults) (c : UnitAddConduit) (s : Store)
    (type_id : String) (unit_key metadata : Fields)
    (relative_path : Option String) :
    (init_unit f c s type_id unit_key metadata relative_path).store = s ∧
    (init_unit f c s type_id unit_key metadata relative_path).conduit = c ∧
    (init_unit noFaults c s type_id unit_key metadata relative_path).result =
      .ok ⟨type_id, unit_key, metadata,
        relative_path.map fun rp => contentStorageRoot ++ type_id ++ "/" ++ rp,
        none⟩ := by
  unfold init_unit init_unit_inner request_content_unit_file_path
  refine ⟨?_, ?_, ?_⟩
  · cases relative_path with
    | none => rfl
    | some rp => cases hp : f.pathFails <;> simp [hp]
  · cases relative_path with
    | none => rfl
    | some rp => cases hp : f.pathFails <;> simp [hp]
  · cases relative_path <;> simp [noFaults, Except.mapError, Option.map]

/-- C5: `get_units` resolves each distinct type's definition exactly once —
the number of `type_definition` calls equals the number of distinct type ids
in the result set, not the result size; in particular a result set spanning
types X, Y, X, Y, X causes exactly 2 resolutions. -/
theorem claim_C5_lookup_batching :
    (∀ records : List AssociatedUnitRecord,
      ∃ units : List Unit,
        get_units noFaults records =
          .ok (units, ((records.map fun r => r.unit_type_id).dedup).length) ∧
        units.length = records.length) ∧
    ∃ units : List Unit,
      get_units noFaults
        [⟨"X", 0, []⟩, ⟨"Y", 1, []⟩, ⟨"X", 2, []⟩, ⟨"Y", 3, []⟩, ⟨"X", 4, []⟩] =
        .ok (units, 2) := by
  constructor
  · intro records
    refine ⟨records.map fun r =>
      to_plugin_unit r
        (((resolve_type_defs
            ((records.map fun r => r.unit_type_id).dedup)).1.lookup
          r.unit_type_id).getD (type_definition r.unit_type_id)), ?_, by simp⟩
    unfold get_units get_units_inner
    simp [noFaults, Except.mapError, resolve_type_defs_count]
  · exact ⟨[⟨"X", [], [], none, some 0⟩, ⟨"Y", [], [], none, some 1⟩,
      ⟨"X", [], [], none, some 2⟩, ⟨"Y", [], [], none, some 3⟩,
      ⟨"X", [], [], none, some 4⟩], by decide⟩

/-- C6: for durable units A and B, `link_unit` with `bidirectional := false`
creates the directed link A to B and no link B to A; with
`bidirectional := true` it creates both directions; and repeating either call
changes nothing and raises no error. -/
theorem claim_C6_link_directionality (c : UnitAddConduit) (s : Store)
    (A B : Unit) (a b : Nat) (hA : A.id = some a) (hB : B.id = some b)
    (hne : (A.type_id, a) ≠ (B.type_id, b))
    (hback : Link.mk B.type_id b A.type_id a ∉ s.links) :
    (link_unit noFaults c s A B false).err = none ∧
    Link.mk A.type_id a B.type_id b ∈ (link_unit noFaults c s A B false).store.links ∧
    Link.mk B.type_id b A.type_id a ∉ (link_unit noFaults c s A B false).store.links ∧
    link_unit noFaults c (link_unit noFaults c s A B false).store A B false =
      { err := none, conduit := c,
        store := (link_unit noFaults c s A B false).store } ∧
    (link_unit noFaults c s A B true).err = none ∧
    Link.mk A.type_id a B.type_id b ∈ (link_unit noFaults c s A B true).store.links ∧
    Link.mk B.type_id b A.type_id a ∈ (link_unit noFaults c s A B true).store.links ∧
    link_unit noFaults c (link_unit noFaults c s A B true).store A B true =
      { err := none, conduit := c,
        store := (link_unit noFaults c s A B true).store } := by
  have hlink_ne : Link.mk B.type_id b A.type_id a ≠ Link.mk A.type_id a B.type_id b := by
    intro hcontra
    injection hcontra with h1 h2 h3 h4
    exact hne (by rw [h1, h2])
  rw [link_unit_noFaults_uni c s A B a b hA hB, link_unit_noFaults_bi c s A B a b hA hB]
  dsimp only
  refine ⟨rfl, mem_insertLink_self s _, ?_, ?_, rfl, ?_, ?_, ?_⟩
  · intro hmem
    rcases (mem_insertLink_iff s _ _).mp hmem with h' | h'
    · exact hlink_ne h'
    · exact hback h'
  · rw [link_unit_noFaults_uni c _ A B a b hA hB,
      insertLink_of_mem (mem_insertLink_self s _)]
  · exact mem_insertLink_of_mem (mem_insertLink_self s _)
  · exact mem_insertLink_self _ _
  · rw [link_unit_noFaults_bi c _ A B a b hA hB,
      insertLink_of_mem (mem_insertLink_of_mem (mem_insertLink_self s _)),
      insertLink_of_mem (mem_insertLink_self _ _)]

/-- Witness for C6 at two concrete durable units over the empty store. -/
theorem claim_C6_witness :
    (link_unit noFaults sampleConduit emptyStore { sampleUnit with id := some 0 }
        { sampleUnit with type_id := "srpm", id := some 1 } false).err = none ∧
    Link.mk sampleUnit.type_id 0 "srpm" 1 ∈
      (link_unit noFaults sampleConduit emptyStore { sampleUnit with id := some 0 }
        { sampleUnit with type_id := "srpm", id := some 1 } false).store.links ∧
    Link.mk "srpm" 1 sampleUnit.type_id 0 ∉
      (link_unit noFaults sampleConduit emptyStore { sampleUnit with id := some 0 }
        { sampleUnit with type_id := "srpm", id := some 1 } false).store.links ∧
    link_unit noFaults sampleConduit
        (link_unit noFaults sampleConduit emptyStore { sampleUnit with id := some 0 }
          { sampleUnit with type_id := "srpm", id := some 1 } false).store
        { sampleUnit with id := some 0 }
        { sampleUnit with type_id := "srpm", id := some 1 } false =
      { err := none, conduit := sampleConduit,
        store := (link_unit noFaults sampleConduit emptyStore
          { sampleUnit with id := some 0 }
          { sampleUnit with type_id := "srpm", id := some 1 } false).store } ∧
    (link_unit noFaults sampleConduit emptyStore { sampleUnit with id := some 0 }
        { sampleUnit with type_id := "srpm", id := some 1 } true).err = none ∧
    Link.mk sampleUnit.type_id 0 "srpm" 1 ∈
      (link_unit noFaults sampleConduit emptyStore { sampleUnit with id := some 0 }
        { sampleUnit with type_id := "srpm", id := some 1 } true).store.links ∧
    Link.mk "srpm" 1 sampleUnit.type_id 0 ∈
      (link_unit noFaults sampleConduit emptyStore { sampleUnit with id := some 0 }
        { sampleUnit with type_id := "srpm", id := some 1 } true).store.links ∧
    link_unit noFaults sampleConduit
        (link_unit noFaults sampleConduit emptyStore { sampleUnit with id := some 0 }
          { sampleUnit with type_id := "srpm", id := some 1 } true).store
        { sampleUnit with id := some 0 }
        { sampleUnit with type_id := "srpm", id := some 1 } true =
      { err := none, conduit := sampleConduit,
        store := (link_unit noFaults sampleConduit emptyStore
          { sampleUnit with id := some 0 }
          { sampleUnit with type_id := "srpm", id := some 1 } true).store } :=
  claim_C6_link_directionality sampleConduit emptyStore
    { sampleUnit with id := some 0 }
    { sampleUnit with type_id := "srpm", id := some 1 } 0 1 rfl rfl
    (by decide) (by decide)

/-- C7 counterexample: a bidirectional `link_unit` is two store calls, not
one atomic call; when the second call fails the operation raises, yet the
store is changed — it retains the first direction's link record — so partial
failure within a single operation is possible. -/
theorem claim_C7_counterexample :
    (link_unit secondLinkFailure sampleConduit emptyStore
        { sampleUnit with id := some 0 }
        { sampleUnit with type_id := "srpm", id := some 1 } true).err =
      some (ImporterConduitException.mk .StoreFailure) ∧
    (link_unit secondLinkFailure sampleConduit emptyStore
        { sampleUnit with id := some 0 }
        { sampleUnit with type_id := "srpm", id := some 1 } true).store ≠
      emptyStore ∧
    (link_unit secondLinkFailure sampleConduit emptyStore
        { sampleUnit with id := some 0 }
        { sampleUnit with type_id := "srpm", id := some 1 } true).store.links =
      [⟨sampleUnit.type_id, 0, "srpm", 1⟩] := by
  decide

/-- C7 (amended): each mutating conduit operation is built from individually
atomic store calls, but `save_unit` and a bidirectional `link_unit` comprise
more than one such call, so an operation that fails partway can retain the
effects of its completed calls; a single-direction `link_unit` that fails
leaves the store unchanged, and a `save_unit` — failed or not — never touches
a stored unit whose fields do not match the saved unit's key. -/
theorem claim_C7_amended (f : Faults) (c : UnitAddConduit) (s : Store)
    (A B u : Unit) (su : StoredUnit)
    (hfail : (link_unit f c s A B false).err.isSome = true)
    (hnodup : (s.units.map StoredUnit.id).Nodup)
    (hsu : su ∈ s.units) (hkey : keyMatches su.fields u.unit_key = false) :
    (link_unit f c s A B false).store = s ∧
    su ∈ (save_unit f c s u).store.units :=
  ⟨link_unit_uni_fail_store f c s A B hfail,
   save_unit_preserves_other_units f c s u su hnodup hsu hkey⟩

/-- Witness for the amended C7: a failing single-direction link leaves the
concrete store unchanged, and a save of a different key preserves the stored
unit. -/
theorem claim_C7_witness :
    (link_unit firstLinkFailure sampleConduit
        { emptyStore with units := [⟨5, "rpm", [("name", "zsh")]⟩], nextId := 6 }
        { sampleUnit with id := some 0 }
        { sampleUnit with type_id := "srpm", id := some 1 } false).store =
      { emptyStore with units := [⟨5, "rpm", [("name", "zsh")]⟩], nextId := 6 } ∧
    (⟨5, "rpm", [("name", "zsh")]⟩ : StoredUnit) ∈
      (save_unit firstLinkFailure sampleConduit
        { emptyStore with units := [⟨5, "rpm", [("name", "zsh")]⟩], nextId := 6 }
        sampleUnit).store.units :=
  claim_C7_amended firstLinkFailure sampleConduit
    { emptyStore with units := [⟨5, "rpm", [("name", "zsh")]⟩], nextId := 6 }
    { sampleUnit with id := some 0 }
    { sampleUnit with type_id := "srpm", id := some 1 } sampleUnit
    ⟨5, "rpm", [("name", "zsh")]⟩ (by decide) (by decide) (by decide) (by decide)

/-- C8: every conduit operation catches the failures of its inner body at the
conduit boundary and re-raises them as the single `ImporterConduitException`
kind carrying the original cause, so the plugin observes exactly one exception
type regardless of which internal step failed. -/
theorem claim_C8_uniform_exception (f : Faults) (c : UnitAddConduit)
    (s : Store) (u A B : Unit) (bidirectional : Bool) (type_id : String)
    (unit_key metadata : Fields) (relative_path : Option String)
    (records : List AssociatedUnitRecord) :
    get_units f records =
      (get_units_inner f records).mapError ImporterConduitException.mk ∧
    (init_unit f c s type_id unit_key metadata relative_path).result =
      (init_unit_inner f c s type_id unit_key metadata
        relative_path).result.mapError ImporterConduitException.mk ∧
    (init_unit f c s type_id unit_key metadata relative_path).store =
      (init_unit_inner f c s type_id unit_key metadata relative_path).store ∧
    (save_unit f c s u).result =
      (save_unit_inner f c s u).result.mapError ImporterConduitException.mk ∧
    (save_unit f c s u).conduit = (save_unit_inner f c s u).conduit ∧
    (save_unit f c s u).store = (save_unit_inner f c s u).store ∧
    (link_unit f c s A B bidirectional).err =
      (link_unit_inner f c s A B bidirectional).err.map
        ImporterConduitException.mk ∧
    (link_unit f c s A B bidirectional).store =
      (link_unit_inner f c s A B bidirectional).store ∧
    ∀ ex : ImporterConduitException, ex = ImporterConduitException.mk ex.cause :=
  ⟨rfl, rfl, rfl, rfl, rfl, rfl, rfl, rfl, fun _ => rfl⟩

/-- C9: the stop operation's own exit code is the last non-zero exit code
among the per-worker stop commands, in iteration order over the discovered
unit files, and the tool exits normally (`none`) exactly when every stop
command returned zero. -/
theorem claim_C9_stop_exit_code (returncodes : List Nat) :
    stop_workers returncodes =
      (returncodes.filter fun rc => decide (rc ≠ EX_OK)).getLast? := by
  unfold stop_workers stop_workers_exit_code
  rw [stop_foldl_eq]
  cases hl : (returncodes.filter fun rc => decide (rc ≠ EX_OK)).getLast? with
  | none => simp [EX_OK]
  | some v =>
    have hv : v ∈ returncodes.filter fun rc => decide (rc ≠ EX_OK) := by
      rcases (returncodes.filter fun rc => decide (rc ≠ EX_OK)).eq_nil_or_concat
        with hnil | ⟨l', b, hconcat⟩
      · rw [hnil] at hl; cases hl
      · rw [hconcat] at hl ⊢
        rw [List.concat_eq_append] at hl ⊢
        rw [List.getLast?_concat] at hl
        injection hl with hl
        rw [hl]
        exact List.mem_append_right _ (List.mem_singleton.mpr rfl)
    have hne : v ≠ EX_OK := by simpa using (List.mem_filter.mp hv).2
    simp [hne]

/-- C10 counterexample: when the association store call fails, `save_unit`
raises — so the sequence has zero successful save calls — yet a counter was
already incremented after the unit write, so `added_count + updated_count`
is 1, not 0, and the inserted unit record persists in the store. -/
theorem claim_C10_counterexample :
    (save_unit assocFailure sampleConduit emptyStore sampleUnit).result.isOk =
      false ∧
    (save_unit assocFailure sampleConduit emptyStore sampleUnit).conduit.added_count +
      (save_unit assocFailure sampleConduit emptyStore
        sampleUnit).conduit.updated_count = 1 ∧
    (save_unit assocFailure sampleConduit emptyStore
      sampleUnit).store.units.length = 1 := by
  decide

/-- C10 (amended): every `save_unit` call either leaves both counters
unchanged (and fails before the unit write completes) or increments exactly
one of `added_count` and `updated_count` by one — the latter also happens for
a save that completes the unit write and then fails at the association step —
and a successful call increments exactly one; no conduit operation decreases
either counter, and `link_unit` and `init_unit` never change them; hence
`added_count + updated_count` equals the number of saves that completed the
unit write, which is at least the number of successful `save_unit` calls. -/
theorem claim_C10_amended (f : Faults) (c : UnitAddConduit) (s : Store)
    (u : Unit) :
    (((save_unit f c s u).conduit.added_count = c.added_count + 1 ∧
      (save_unit f c s u).conduit.updated_count = c.updated_count) ∨
     ((save_unit f c s u).conduit.updated_count = c.updated_count + 1 ∧
      (save_unit f c s u).conduit.added_count = c.added_count) ∨
     ((save_unit f c s u).result.isOk = false ∧
      (save_unit f c s u).conduit = c)) ∧
    ((save_unit f c s u).result.isOk = true →
      (save_unit f c s u).conduit.added_count +
        (save_unit f c s u).conduit.updated_count =
      c.added_count + c.updated_count + 1) ∧
    c.added_count ≤ (save_unit f c s u).conduit.added_count ∧
    c.updated_count ≤ (save_unit f c s u).conduit.updated_count ∧
    (∀ (A B : Unit) (bidirectional : Bool),
      (link_unit f c s A B bidirectional).conduit = c) ∧
    ∀ (type_id : String) (unit_key metadata : Fields)
      (relative_path : Option String),
      (init_unit f c s type_id unit_key metadata relative_path).conduit = c := by
  have h := save_unit_conduit_shape f c s u
  refine ⟨?_, ?_, ?_, ?_, fun A B bidir => link_unit_conduit_eq f c s A B bidir,
    fun tid key md rp => init_unit_conduit_eq f c s tid key md rp⟩
  · rcases h with ⟨hok, hc⟩ | hc | hc
    · exact Or.inr (Or.inr ⟨hok, hc⟩)
    · exact Or.inl ⟨by rw [hc], by rw [hc]⟩
    · exact Or.inr (Or.inl ⟨by rw [hc], by rw [hc]⟩)
  · intro hok
    rcases h with ⟨hok', _⟩ | hc | hc
    · rw [hok] at hok'; cases hok'
    · rw [hc]
      show c.added_count + 1 + c.updated_count = c.added_count + c.updated_count + 1
      omega
    · rw [hc]
      show c.added_count + (c.updated_count + 1) = c.added_count + c.updated_count + 1
      omega
  · rcases h with ⟨_, hc⟩ | hc | hc <;> rw [hc] <;> exact Nat.le_succ _
  · rcases h with ⟨_, hc⟩ | hc | hc <;> rw [hc] <;> exact Nat.le_succ _

/-- Witness for the amended C10 at a concrete fault-free save over the empty
store. -/
theorem claim_C10_witness :
    (((save_unit noFaults sampleConduit emptyStore sampleUnit).conduit.added_count =
        sampleConduit.added_count + 1 ∧
      (save_unit noFaults sampleConduit emptyStore sampleUnit).conduit.updated_count =
        sampleConduit.updated_count) ∨
     ((save_unit noFaults sampleConduit emptyStore sampleUnit).conduit.updated_count =
        sampleConduit.updated_count + 1 ∧
      (save_unit noFaults sampleConduit emptyStore sampleUnit).conduit.added_count =
        sampleConduit.added_count) ∨
     ((save_unit noFaults sampleConduit emptyStore sampleUnit).result.isOk = false ∧
      (save_unit noFaults sampleConduit emptyStore sampleUnit).conduit =
        sampleConduit)) ∧
    ((save_unit noFaults sampleConduit emptyStore sampleUnit).result.isOk = true →
      (save_unit noFaults sampleConduit emptyStore sampleUnit).conduit.added_count +
        (save_unit noFaults sampleConduit emptyStore sampleUnit).conduit.updated_count =
      sampleConduit.added_count + sampleConduit.updated_count + 1) ∧
    sampleConduit.added_count ≤
      (save_unit noFaults sampleConduit emptyStore sampleUnit).conduit.added_count ∧
    sampleConduit.updated_count ≤
      (save_unit noFaults sampleConduit emptyStore sampleUnit).conduit.updated_count ∧
    (∀ (A B : Unit) (bidirectional : Bool),
      (link_unit noFaults sampleConduit emptyStore A B bidirectional).conduit =
        sampleConduit) ∧
    ∀ (type_id : String) (unit_key metadata : Fields)
      (relative_path : Option String),
      (init_unit noFaults sampleConduit emptyStore type_id unit_key metadata
        relative_path).conduit = sampleConduit :=
  claim_C10_amended noFaults sampleConduit emptyStore sampleUnit

end Pulp
